import Mathlib

/-!
Verification development for the cleo repository: a shallow Lean embedding of
the status/progress state machine, validation layer, persistence helpers and
pipeline stage handlers, together with theorems settling the spec claims.

Conventions of the embedding:
* Database tables are lists of row structures; Prisma queries become list
  operations (`find?`, `filter`, append).
* `async` handlers become pure state-passing functions; each external call
  (LLM, object store, TTS) is an `Except String`-valued argument standing for
  the outcome of that call.
* Human-readable validation messages are represented by the inductive
  `ValidationMsg`, one constructor per `errors.push`/`warnings.push` site of
  `src/lib/validation.ts` (the TS strings are rendered with the float-based
  `formatBytes`, which is purely presentational); `ValidationMsg.mimeTypeRequired`
  stands for the literal string "MIME type is required".
* The Prisma enum values are upper-case in the schema; the `AssetType`
  constructors are written in PascalCase here.
-/

namespace Cleo

/-- Prisma enum ProjectStatus (schema, Phase 0 docs):
PLANNED | NARRATED | ALIGNED | CUES_READY | FRAMES_READY | ASSEMBLED. -/
inductive ProjectStatus where
  | PLANNED
  | NARRATED
  | ALIGNED
  | CUES_READY
  | FRAMES_READY
  | ASSEMBLED
deriving DecidableEq, Repr

/-- Prisma enum AssetType: AUDIO | ALIGN | FRAME | CUE | VIDEO | DOC. -/
inductive AssetType where
  | Audio
  | Align
  | Frame
  | Cue
  | Video
  | Doc
deriving DecidableEq, Repr

/-- Prisma enum FrameStatus: NEW | GENERATED | APPROVED | REPAIR_NEEDED. -/
inductive FrameStatus where
  | NEW
  | GENERATED
  | APPROVED
  | REPAIR_NEEDED
deriving DecidableEq, Repr

/-- FILE_SIZE_LIMITS from src/lib/validation.ts (bytes). -/
def FILE_SIZE_LIMITS : AssetType → Nat
  | AssetType.Audio => 50 * 1024 * 1024
  | AssetType.Video => 500 * 1024 * 1024
  | AssetType.Frame => 10 * 1024 * 1024
  | AssetType.Doc => 5 * 1024 * 1024
  | AssetType.Align => 1024 * 1024
  | AssetType.Cue => 1024 * 1024

/-- ALLOWED_MIME_TYPES from src/lib/validation.ts. -/
def ALLOWED_MIME_TYPES : AssetType → List String
  | AssetType.Audio =>
      ["audio/wav", "audio/wave", "audio/x-wav", "audio/mpeg", "audio/mp3",
       "audio/mp4", "audio/aac", "audio/ogg", "audio/webm"]
  | AssetType.Video =>
      ["video/mp4", "video/mpeg", "video/quicktime", "video/x-msvideo",
       "video/webm", "video/ogg"]
  | AssetType.Frame =>
      ["image/png", "image/jpeg", "image/jpg", "image/webp", "image/gif",
       "image/svg+xml"]
  | AssetType.Doc =>
      ["application/json", "application/pdf", "text/plain", "text/markdown",
       "application/msword",
       "application/vnd.openxmlformats-officedocument.wordprocessingml.document"]
  | AssetType.Align => ["application/json", "text/plain"]
  | AssetType.Cue => ["application/json", "text/plain"]

/-- ALLOWED_EXTENSIONS from src/lib/validation.ts. -/
def ALLOWED_EXTENSIONS : AssetType → List String
  | AssetType.Audio => [".wav", ".mp3", ".mp4", ".aac", ".ogg", ".webm", ".m4a"]
  | AssetType.Video => [".mp4", ".mpeg", ".mov", ".avi", ".webm", ".ogv", ".mkv"]
  | AssetType.Frame => [".png", ".jpg", ".jpeg", ".webp", ".gif", ".svg"]
  | AssetType.Doc => [".json", ".pdf", ".txt", ".md", ".doc", ".docx"]
  | AssetType.Align => [".json", ".txt"]
  | AssetType.Cue => [".json", ".txt"]

/-- Keys of FILENAME_PATTERNS from src/lib/validation.ts. -/
inductive PatternKey where
  | BEAT_AUDIO_KEY
  | BEAT_ALIGNMENT
  | FRAME_KEY
  | PROJECT_PLAN
  | STYLE_BIBLE
  | CUES
  | FINAL_VIDEO
  | FINAL_ALIGNMENT
deriving DecidableEq, Repr

/-- Suffix of the character list starting at the LAST dot, mirroring
`filename.lastIndexOf('.')` followed by `filename.slice(lastDot)`. -/
def lastDotSuffix : List Char → Option (List Char)
  | [] => none
  | c :: cs =>
    match lastDotSuffix cs with
    | some s => some s
    | none => if c = '.' then some (c :: cs) else none

/-- getFileExtension from src/lib/validation.ts: the substring from the last
dot (inclusive), lower-cased; the empty string when there is no dot. -/
def getFileExtension (filename : String) : String :=
  match lastDotSuffix filename.data with
  | some cs => String.mk (cs.map Char.toLower)
  | none => ""

/-- Matches a literal at the head of the character list, returning the rest. -/
def dropLit : List Char → List Char → Option (List Char)
  | [], cs => some cs
  | _ :: _, [] => none
  | l :: ls, c :: cs => if c = l then dropLit ls cs else none

/-- Consumes one-or-more decimal digits, mirroring a regex `\d+` group. -/
def dropDigits1 (cs : List Char) : Option (List Char) :=
  let ds := cs.takeWhile Char.isDigit
  if ds.isEmpty then none else some (cs.drop ds.length)

/-- The remaining characters are exactly a dot followed by one of the given
alternatives, mirroring a regex tail such as `\.(wav|mp3)$`. -/
def endsAsDotExt (cs : List Char) (exts : List String) : Bool :=
  exts.any (fun e => cs == ('.' :: e.data))

/-- FILENAME_PATTERNS from src/lib/validation.ts: each case-insensitive regex,
evaluated on the lower-cased character list of the filename. -/
def filenamePatternTest (key : PatternKey) (filename : String) : Bool :=
  let cs := filename.data.map Char.toLower
  match key with
  | PatternKey.BEAT_AUDIO_KEY =>
    match dropLit "beat_".data cs with
    | none => false
    | some r =>
      match dropDigits1 r with
      | none => false
      | some r => endsAsDotExt r ["wav", "mp3", "mp4", "aac", "ogg", "webm", "m4a"]
  | PatternKey.BEAT_ALIGNMENT =>
    match dropLit "beat_".data cs with
    | none => false
    | some r =>
      match dropDigits1 r with
      | none => false
      | some r => r == ".json".data
  | PatternKey.FRAME_KEY =>
    match dropLit "b".data cs with
    | none => false
    | some r =>
      match dropDigits1 r with
      | none => false
      | some r =>
        match dropLit "_f".data r with
        | none => false
        | some r =>
          match dropDigits1 r with
          | none => false
          | some r => endsAsDotExt r ["png", "jpg", "jpeg", "webp", "gif"]
  | PatternKey.PROJECT_PLAN => cs == "projectplan.json".data
  | PatternKey.STYLE_BIBLE => cs == "stylebible.min.json".data
  | PatternKey.CUES => cs == "cues.json".data
  | PatternKey.FINAL_VIDEO =>
    match dropLit "final".data cs with
    | none => false
    | some r => endsAsDotExt r ["mp4", "webm", "mov"]
  | PatternKey.FINAL_ALIGNMENT => cs == "final.json".data

/-- One constructor per message pushed by src/lib/validation.ts; the payload
is the data interpolated into the TS template string. `mimeTypeRequired` is
the literal message "MIME type is required". -/
inductive ValidationMsg where
  | sizeExceedsLimit (size limit : Nat) (assetType : AssetType)
  | sizeLargeWarning (size limit : Nat) (assetType : AssetType)
  | mimeTypeRequired
  | mimeTypeNotAllowed (mimeType : String) (assetType : AssetType)
  | extensionNotAllowed (extension : String) (assetType : AssetType)
  | filenamePatternMismatch (filename : String) (expected : PatternKey)
deriving DecidableEq, Repr

/-- ValidationResult interface from src/lib/validation.ts. -/
structure ValidationResult where
  isValid : Bool
  errors : List ValidationMsg
  warnings : List ValidationMsg
deriving DecidableEq, Repr

/-- validateFileSize from src/lib/validation.ts; the buffer is represented by
its byte size. The warning guard `size > limit * 0.5` is written as
`2 * size > limit`, which is equivalent over the integers involved. -/
def validateFileSize (size : Nat) (assetType : AssetType) : ValidationResult :=
  let limit := FILE_SIZE_LIMITS assetType
  let r0 : ValidationResult := ⟨true, [], []⟩
  let r1 :=
    if size > limit then
      { r0 with isValid := false,
                errors := r0.errors ++ [ValidationMsg.sizeExceedsLimit size limit assetType] }
    else r0
  if 2 * size > limit then
    { r1 with warnings := r1.warnings ++ [ValidationMsg.sizeLargeWarning size limit assetType] }
  else r1

/-- validateMimeType from src/lib/validation.ts. The TS guard `if (!mimeType)`
fires both for an omitted argument and for the empty string. -/
def validateMimeType (mimeType : Option String) (assetType : AssetType) :
    ValidationResult :=
  match mimeType with
  | none => ⟨false, [ValidationMsg.mimeTypeRequired], []⟩
  | some m =>
    if m = "" then ⟨false, [ValidationMsg.mimeTypeRequired], []⟩
    else if m ∈ ALLOWED_MIME_TYPES assetType then ⟨true, [], []⟩
    else ⟨false, [ValidationMsg.mimeTypeNotAllowed m assetType], []⟩

/-- validateFileExtension from src/lib/validation.ts. -/
def validateFileExtension (filename : String) (assetType : AssetType) :
    ValidationResult :=
  if getFileExtension filename ∈ ALLOWED_EXTENSIONS assetType then ⟨true, [], []⟩
  else ⟨false, [ValidationMsg.extensionNotAllowed (getFileExtension filename) assetType], []⟩

/-- validateFilenamePattern from src/lib/validation.ts. -/
def validateFilenamePattern (filename : String)
    (expectedPattern : Option PatternKey) : ValidationResult :=
  match expectedPattern with
  | none => ⟨true, [], []⟩
  | some key =>
    if filenamePatternTest key filename then ⟨true, [], []⟩
    else ⟨false, [ValidationMsg.filenamePatternMismatch filename key], []⟩

/-- The combination loop at the end of validateFile: `isValid` is the
conjunction, errors and warnings are concatenated in order. -/
def combineValidationResults (results : List ValidationResult) : ValidationResult :=
  results.foldl
    (fun combined r =>
      ⟨combined.isValid && r.isValid,
       combined.errors ++ r.errors,
       combined.warnings ++ r.warnings⟩)
    ⟨true, [], []⟩

/-- validateFile from src/lib/validation.ts: size, extension, MIME and
filename-pattern checks, all evaluated, results combined. -/
def validateFile (filename : String) (bufferSize : Nat) (assetType : AssetType)
    (mimeType : Option String) (expectedPattern : Option PatternKey) :
    ValidationResult :=
  combineValidationResults
    [validateFileSize bufferSize assetType,
     validateFileExtension filename assetType,
     validateMimeType mimeType assetType,
     validateFilenamePattern filename expectedPattern]

/-- Beat row (Prisma model Beat), as read back from the database; the
database-generated primary key is `id`. -/
structure Beat where
  id : Nat
  index : Nat
  summary : String
  onScreenText : Option String
  plannedFrames : Option Nat
  durationS : Option Nat
deriving DecidableEq, Repr

/-- Frame row (Prisma model Frame), restricted to the fields written by
materializeFramesFromBeats. -/
structure FrameRow where
  projectId : String
  beatId : Nat
  index : Nat
  status : FrameStatus
deriving DecidableEq, Repr

/-- The inner loop of materializeFramesFromBeats: for `i` from 1 to
`beat.plannedFrames || 0`, create a frame with index `i` and status NEW. -/
def framesForBeat (projectId : String) (beat : Beat) : List FrameRow :=
  (List.range (beat.plannedFrames.getD 0)).map
    (fun i => ⟨projectId, beat.id, i + 1, FrameStatus.NEW⟩)

/-- materializeFramesFromBeats from src/lib/db.ts, acting on the Frame table:
delete every frame of the project, recreate one frame per planned index per
beat, and return the new table with `db.frame.count({ where: { projectId } })`. -/
def materializeFramesFromBeats (projectId : String) (beats : List Beat)
    (frames : List FrameRow) : List FrameRow × Nat :=
  let afterDelete := frames.filter (fun f => !(f.projectId == projectId))
  let created := beats.flatMap (framesForBeat projectId)
  let table := afterDelete ++ created
  (table, (table.filter (fun f => f.projectId == projectId)).length)

/-- Project row (Prisma model Project) together with its owner's Clerk id
(the User relation) and its beats, as used by the ownership-checked reads. -/
structure ProjectRow where
  id : String
  ownerClerkId : String
  topic : String
  status : ProjectStatus
  beats : List Beat
deriving DecidableEq, Repr

/-- getProjectForUser from src/lib/db.ts:
`db.project.findFirst({ where: { id: projectId, owner: { clerkId } } })`. -/
def getProjectForUser (projects : List ProjectRow) (projectId clerkId : String) :
    Option ProjectRow :=
  projects.find? (fun p => p.id == projectId && p.ownerClerkId == clerkId)

/-- getProjectWithPlanningData from src/lib/db.ts: the same findFirst filter,
with the owner condition only when a clerkId is supplied. -/
def getProjectWithPlanningData (projects : List ProjectRow) (projectId : String)
    (clerkId : Option String) : Option ProjectRow :=
  match clerkId with
  | some cid => projects.find? (fun p => p.id == projectId && p.ownerClerkId == cid)
  | none => projects.find? (fun p => p.id == projectId)

/-- JSON envelope of a route handler, reduced to success flag, HTTP status and
optional payload. -/
inductive RouteResponse (α : Type) where
  | ok (data : α)
  | err (status : Nat) (msg : String)
deriving DecidableEq, Repr

/-- GET /api/projects/[id] from src/app/api/projects/[id]/route.ts: 401 when
unauthenticated, 404 when getProjectForUser finds nothing, otherwise the
project (re-read through getProjectWithPlanningData when status is PLANNED). -/
def projectGetRoute (userId : Option String) (projects : List ProjectRow)
    (id : String) : RouteResponse ProjectRow :=
  match userId with
  | none => RouteResponse.err 401 "Unauthorized"
  | some uid =>
    match getProjectForUser projects id uid with
    | none => RouteResponse.err 404 "Project not found"
    | some project =>
      if project.status = ProjectStatus.PLANNED then
        match getProjectWithPlanningData projects id (some uid) with
        | some withPlanning => RouteResponse.ok withPlanning
        | none => RouteResponse.ok project
      else RouteResponse.ok project

/-- DialogueTurn interface from src/lib/llm.ts. -/
structure DialogueTurn where
  index : Nat
  text : String
  estimatedDuration : Nat
deriving DecidableEq, Repr

/-- BeatPlan interface from src/lib/llm.ts. -/
structure BeatPlan where
  index : Nat
  summary : String
  onScreenText : Option String
  plannedFrames : Option Nat
  durationS : Option Nat
deriving DecidableEq, Repr

/-- StyleBible interface from src/lib/llm.ts. -/
structure StyleBible where
  visualStyle : String
  colorPalette : List String
  typography : String
  mood : String
deriving DecidableEq, Repr

/-- One element of TimelineSkeleton.beatTimings from src/lib/llm.ts. -/
structure BeatTiming where
  beatIndex : Nat
  startTime : Nat
  endTime : Nat
deriving DecidableEq, Repr

/-- TimelineSkeleton interface from src/lib/llm.ts. -/
structure TimelineSkeleton where
  totalDuration : Nat
  beatTimings : List BeatTiming
deriving DecidableEq, Repr

/-- PlanResponse interface from src/lib/llm.ts. -/
structure PlanResponse where
  dialogueInputs : List DialogueTurn
  beats : List BeatPlan
  styleBibleMin : StyleBible
  timelineSkeleton : TimelineSkeleton
deriving DecidableEq, Repr

/-- The apostrophe character, used to spell the mock dialogue strings. -/
def apos : String := String.mk [Char.ofNat 39]

/-- generateMockPlan from src/lib/planning.ts: a pure function of the topic,
making no external call. -/
def generateMockPlan (topic : String) : PlanResponse :=
  { dialogueInputs :=
      [⟨0, "Ever wondered about " ++ topic ++ "? Let" ++ apos ++
           "s dive in and explore this fascinating topic together.", 8⟩,
       ⟨1, "First, let" ++ apos ++ "s understand what " ++ topic ++
           " actually means and why it matters in today" ++ apos ++ "s world.", 12⟩,
       ⟨2, "The key components that make " ++ topic ++
           " work are interconnected in interesting ways.", 15⟩,
       ⟨3, "Here" ++ apos ++
           "s where things get really interesting - the practical applications are endless.", 18⟩,
       ⟨4, "Let" ++ apos ++
           "s look at some real-world examples that demonstrate these principles in action.", 20⟩,
       ⟨5, "But what about the challenges? Every system has its limitations and considerations.", 16⟩,
       ⟨6, "The future looks bright with emerging trends and innovations on the horizon.", 14⟩,
       ⟨7, "Now you have a solid understanding of " ++ topic ++
           " and its importance. Thanks for watching!", 10⟩],
    beats :=
      [⟨1, "Introduction and hook - animated title sequence with " ++ topic ++ " visualization",
          some ("Understanding " ++ topic), some 2, some 20⟩,
       ⟨2, "Definition and context - infographic style explanation with icons",
          some "What it means", some 3, some 27⟩,
       ⟨3, "Key components breakdown - diagram with interconnected elements",
          some "Key Components", some 4, some 33⟩,
       ⟨4, "Practical applications showcase - split screen examples",
          some "Real Applications", some 3, some 38⟩,
       ⟨5, "Real-world examples - case studies with visual data",
          some "Success Stories", some 3, some 36⟩,
       ⟨6, "Future trends and conclusion - forward-looking animation",
          some "The Future", some 2, some 24⟩],
    styleBibleMin :=
      ⟨"Modern flat illustration with clean geometric shapes and subtle gradients",
       ["#2563eb", "#3b82f6", "#60a5fa", "#93c5fd", "#ffffff"],
       "Inter font family, bold for headings, medium for body text",
       "Professional, approachable, and educational"⟩,
    timelineSkeleton :=
      ⟨180, [⟨1, 0, 20⟩, ⟨2, 20, 47⟩, ⟨3, 47, 80⟩, ⟨4, 80, 118⟩,
             ⟨5, 118, 154⟩, ⟨6, 154, 178⟩]⟩ }

/-- ProgressEntry row (Prisma model ProgressEntry), minus ids and timestamp. -/
structure ProgressEntry where
  phase : String
  status : String
  notes : Option String
deriving DecidableEq, Repr

/-- Asset row (Prisma model Asset) restricted to the fields the stage handlers
decide on; byte size, checksum and meta of createAsset are not modeled. -/
structure AssetRow where
  type : AssetType
  label : String
  r2Key : String
deriving DecidableEq, Repr

/-- JSON envelope of the stage handlers: success flag, HTTP status, and the
`error` string of the failure envelopes. -/
structure Envelope where
  success : Bool
  httpStatus : Nat
  error : Option String
deriving DecidableEq, Repr

/-- An error envelope `{ success: false, error: msg }` with an HTTP status. -/
def errEnvelope (code : Nat) (msg : String) : Envelope := ⟨false, code, some msg⟩

/-- The success envelope `{ success: true, data: ... }`. -/
def okEnvelope : Envelope := ⟨true, 200, none⟩

/-- The database state one planning or narration request can touch, restricted
to a single project: the project row, its append-only progress log, its beat
table (written by createProjectBeats; the database-generated beat ids are not
modeled, so the rows are kept as the BeatPlan payload), its style bible and
its assets. -/
structure PlanWorld where
  project : ProjectRow
  progress : List ProgressEntry
  beats : List BeatPlan
  styleBible : Option StyleBible
  assets : List AssetRow
deriving DecidableEq, Repr

/-- trackPlanningProgress / trackAssetProgress from src/lib/db.ts:
`db.progressEntry.create` appends one entry, never mutating prior entries. -/
def trackPlanningProgress (w : PlanWorld) (phase status : String)
    (notes : Option String) : PlanWorld :=
  { w with progress := w.progress ++ [⟨phase, status, notes⟩] }

/-- updateProjectStatusToPlanned from src/lib/db.ts: `db.project.update` sets
the status field directly to PLANNED with no check of the current status (the
ownership part of the where clause is checked by the callers modeled here). -/
def updateProjectStatusToPlanned (p : ProjectRow) : ProjectRow :=
  { p with status := ProjectStatus.PLANNED }

/-- Modelled from the spec: `updateProjectStatusToNarrated` is imported by the
narration route from src/lib/db.ts but its definition is not among the
sources; per the spec (section 4.3) the status setter sets the project's
status field directly, with no validation of the transition. -/
def updateProjectStatusToNarrated (p : ProjectRow) : ProjectRow :=
  { p with status := ProjectStatus.NARRATED }

/-- POST /api/plan (the planning stage handler). `userId` is the Clerk auth
outcome; `bodyOk` stands for JSON parsing plus zod validation; `projectFound`
for the getProjectForUser ownership check; `llm` for generateProjectPlan;
`storage` for processPlanForStorage (returning the two R2 keys); `dbFailure`
for a throw inside the createProjectBeats / createProjectStyleBible /
updateProjectStatusToPlanned block; `assetFailure` for a throw inside the
inner createAsset try, which the handler catches and only logs. -/
def planRoutePost (w : PlanWorld) (userId : Option String)
    (bodyOk projectFound : Bool) (topic : String)
    (llm : Except String PlanResponse)
    (storage : Except String (String × String))
    (dbFailure assetFailure : Option String) : PlanWorld × Envelope :=
  match userId with
  | none => (w, errEnvelope 401 "Authentication required")
  | some _uid =>
    if bodyOk = false then (w, errEnvelope 400 "Invalid request data")
    else if projectFound = false then
      (w, errEnvelope 404 "Project not found or access denied")
    else
      let w := trackPlanningProgress w "PLANNING_START" "IN_PROGRESS"
        (some ("Starting planning for: " ++ topic))
      let w := trackPlanningProgress w "LLM_GENERATION" "IN_PROGRESS"
        (some "Calling GPT-5 for plan generation")
      match llm with
      | Except.error e =>
        let w := trackPlanningProgress w "LLM_GENERATION" "FAILED"
          (some ("LLM error: " ++ e))
        (w, errEnvelope 500 "Failed to generate plan with GPT-5")
      | Except.ok plan =>
        let w := trackPlanningProgress w "LLM_GENERATION" "COMPLETED"
          (some ("Generated " ++ toString plan.beats.length ++ " beats, " ++
                 toString plan.dialogueInputs.length ++ " dialogue turns"))
        let w := trackPlanningProgress w "STORAGE_UPLOAD" "IN_PROGRESS"
          (some "Uploading plan files to R2")
        match storage with
        | Except.error e =>
          let w := trackPlanningProgress w "STORAGE_UPLOAD" "FAILED"
            (some ("Storage error: " ++ e))
          (w, errEnvelope 500 "Failed to save plan files to storage")
        | Except.ok keys =>
          let w := trackPlanningProgress w "STORAGE_UPLOAD" "COMPLETED"
            (some "Uploaded ProjectPlan.json and StyleBible.min.json")
          let w := trackPlanningProgress w "DATABASE_SAVE" "IN_PROGRESS"
            (some "Saving beats and style bible to database")
          match dbFailure with
          | some e =>
            let w := trackPlanningProgress w "DATABASE_SAVE" "FAILED"
              (some ("Database error: " ++ e))
            (w, errEnvelope 500 "Failed to save plan data to database")
          | none =>
            let w := { w with beats := plan.beats }
            let w := { w with styleBible := some plan.styleBibleMin }
            let w :=
              match assetFailure with
              | some _e => w
              | none =>
                { w with assets := w.assets ++
                    [AssetRow.mk AssetType.Doc "ProjectPlan.json" keys.1,
                     AssetRow.mk AssetType.Doc "StyleBible.min.json" keys.2] }
            let w := { w with project := updateProjectStatusToPlanned w.project }
            let w := trackPlanningProgress w "DATABASE_SAVE" "COMPLETED"
              (some ("Saved " ++ toString plan.beats.length ++ " beats and style bible"))
            let w := trackPlanningProgress w "PLANNING_COMPLETE" "COMPLETED"
              (some ("Planning completed successfully. Total duration: " ++
                     toString plan.timelineSkeleton.totalDuration ++ "s"))
            (w, okEnvelope)

/-- String.padStart(3, c) as used for the narration asset filename. -/
def padStartWith (s : String) (len : Nat) (c : Char) : String :=
  String.mk (List.replicate (len - s.length) c) ++ s

/-- The database state a narration request can touch. -/
structure NarrWorld where
  project : ProjectRow
  progress : List ProgressEntry
  assets : List AssetRow
deriving DecidableEq, Repr

/-- trackNarrationProgress (imported by the narration route from src/lib/db.ts;
like trackPlanningProgress it appends one progress entry). -/
def trackNarrationProgress (w : NarrWorld) (phase status : String)
    (notes : Option String) : NarrWorld :=
  { w with progress := w.progress ++ [⟨phase, status, notes⟩] }

/-- POST /api/narration, single-dialogue path: after auth, body validation and
the ownership check, the handler rejects with 400 unless the project status is
PLANNED, rejects when the project has no beats, generates audio (`audio` is
the generateAudio outcome carrying the R2 key), records the asset (catching
and only logging a failure there), sets the status to NARRATED and returns
success. -/
def narrationPost (w : NarrWorld) (userId : Option String)
    (bodyOk projectFound : Bool) (dialogueIndex : Nat) (voiceId : String)
    (audio : Except String String) (assetFailure : Option String) :
    NarrWorld × Envelope :=
  match userId with
  | none => (w, errEnvelope 401 "Authentication required")
  | some _uid =>
    if bodyOk = false then (w, errEnvelope 400 "Invalid request data")
    else if projectFound = false then
      (w, errEnvelope 404 "Project not found or access denied")
    else if w.project.status ≠ ProjectStatus.PLANNED then
      (w, errEnvelope 400 "Project must be in PLANNED status to generate narration")
    else if w.project.beats.length = 0 then
      (w, errEnvelope 400 "Project has no dialogue turns to narrate")
    else
      let w := trackNarrationProgress w "NARRATION_START" "IN_PROGRESS"
        (some ("Starting narration with voice: " ++ voiceId))
      let w := trackNarrationProgress w "AUDIO_GENERATION" "IN_PROGRESS"
        (some ("Generating audio for dialogue " ++ toString dialogueIndex))
      match audio with
      | Except.error e =>
        let w := trackNarrationProgress w "AUDIO_GENERATION" "FAILED"
          (some ("Audio generation failed: " ++ e))
        (w, errEnvelope 500 "Failed to generate audio")
      | Except.ok key =>
        let w := trackNarrationProgress w "AUDIO_GENERATION" "COMPLETED"
          (some ("Generated audio for dialogue " ++ toString dialogueIndex ++ ": " ++ key))
        let w :=
          match assetFailure with
          | some _e => w
          | none =>
            { w with assets := w.assets ++
                [AssetRow.mk AssetType.Audio
                  ("beat_" ++ padStartWith (toString dialogueIndex) 3 '0' ++ ".mp3")
                  key] }
        let w := { w with project := updateProjectStatusToNarrated w.project }
        let w := trackNarrationProgress w "NARRATION_COMPLETE" "COMPLETED"
          (some ("Narration completed successfully for dialogue " ++ toString dialogueIndex))
        (w, okEnvelope)

/-- Concrete beats with planned-frame counts [2, 3], for the frame-count
scenario. -/
def beatsTwoThree : List Beat :=
  [⟨1, 1, "beat one", none, some 2, none⟩,
   ⟨2, 2, "beat two", none, some 3, none⟩]

/-- A concrete project whose owner is "user_owner", holding some contents. -/
def ownedProjectA : ProjectRow :=
  ⟨"p1", "user_owner", "secret topic", ProjectStatus.PLANNED, []⟩

/-- The same project id and owner with entirely different contents. -/
def ownedProjectB : ProjectRow :=
  ⟨"p1", "user_owner", "other contents", ProjectStatus.ASSEMBLED,
   [⟨1, 1, "b", none, some 2, none⟩]⟩

/-- A one-project database holding ownedProjectA. -/
def dbWithA : List ProjectRow := [ownedProjectA]

/-- A one-project database holding ownedProjectB. -/
def dbWithB : List ProjectRow := [ownedProjectB]

/-- A concrete plan-route world whose project is already ASSEMBLED. -/
def planWorld0 : PlanWorld :=
  ⟨⟨"p1", "user_1", "coffee", ProjectStatus.ASSEMBLED, []⟩, [], [], none, []⟩

/-- A minimal concrete PlanResponse. -/
def emptyPlanResponse : PlanResponse := ⟨[], [], ⟨"", [], "", ""⟩, ⟨0, []⟩⟩

/-- A concrete narration-route world whose project status is ALIGNED. -/
def alignedNarrWorld : NarrWorld :=
  ⟨⟨"p1", "user_1", "coffee", ProjectStatus.ALIGNED,
    [⟨1, 1, "b", some "text", some 2, some 20⟩]⟩, [], []⟩

/-- A concrete plan-route run in which every step succeeds except the
createAsset recording step, which throws "R2 write failed". -/
def assetFailureRun : PlanWorld × Envelope :=
  planRoutePost planWorld0 (some "user_1") true true "coffee"
    (Except.ok emptyPlanResponse) (Except.ok ("k1", "k2")) none
    (some "R2 write failed")

/-- A concrete narration-route run against the ALIGNED project with every
oracle succeeding. -/
def alignedNarrationRun : NarrWorld × Envelope :=
  narrationPost alignedNarrWorld (some "user_1") true true 0 "voice"
    (Except.ok "k") none

/-! Helper lemmas about the validation layer. -/

theorem allowedMime_ne_empty (t : AssetType) (m : String)
    (h : m ∈ ALLOWED_MIME_TYPES t) : m ≠ "" := by
  intro he
  subst he
  cases t <;> revert h <;> decide

theorem validateFile_errors (filename : String) (size : Nat) (t : AssetType)
    (m : Option String) (pat : Option PatternKey) :
    (validateFile filename size t m pat).errors =
      (validateFileSize size t).errors ++
      ((validateFileExtension filename t).errors ++
       ((validateMimeType m t).errors ++
        (validateFilenamePattern filename pat).errors)) := by
  simp [validateFile, combineValidationResults, List.append_assoc]

theorem validateFile_isValid (filename : String) (size : Nat) (t : AssetType)
    (m : Option String) (pat : Option PatternKey) :
    (validateFile filename size t m pat).isValid =
      ((validateFileSize size t).isValid &&
       ((validateFileExtension filename t).isValid &&
        ((validateMimeType m t).isValid &&
         (validateFilenamePattern filename pat).isValid))) := by
  simp [validateFile, combineValidationResults, Bool.and_assoc]

theorem validateFileSize_gt (size : Nat) (t : AssetType)
    (h : FILE_SIZE_LIMITS t < size) :
    validateFileSize size t =
      ⟨false, [ValidationMsg.sizeExceedsLimit size (FILE_SIZE_LIMITS t) t],
       [ValidationMsg.sizeLargeWarning size (FILE_SIZE_LIMITS t) t]⟩ := by
  have h2 : FILE_SIZE_LIMITS t < 2 * size := by omega
  simp [validateFileSize, h, h2]

theorem validateFileSize_le (size : Nat) (t : AssetType)
    (h : size ≤ FILE_SIZE_LIMITS t) :
    (validateFileSize size t).isValid = true ∧
    (validateFileSize size t).errors = [] := by
  have h1 : ¬ (FILE_SIZE_LIMITS t < size) := by omega
  constructor <;> simp [validateFileSize, h1] <;> split <;> rfl

theorem validateMimeType_mem (t : AssetType) (m : String)
    (h : m ∈ ALLOWED_MIME_TYPES t) :
    validateMimeType (some m) t = ⟨true, [], []⟩ := by
  have hne : m ≠ "" := allowedMime_ne_empty t m h
  simp [validateMimeType, hne, h]

theorem validateMimeType_notAllowed (t : AssetType) (m : String)
    (hne : m ≠ "") (h : m ∉ ALLOWED_MIME_TYPES t) :
    validateMimeType (some m) t =
      ⟨false, [ValidationMsg.mimeTypeNotAllowed m t], []⟩ := by
  simp [validateMimeType, hne, h]

theorem validateFileExtension_not_mem (filename : String) (t : AssetType)
    (h : getFileExtension filename ∉ ALLOWED_EXTENSIONS t) :
    validateFileExtension filename t =
      ⟨false, [ValidationMsg.extensionNotAllowed (getFileExtension filename) t], []⟩ := by
  simp [validateFileExtension, h]

/-- C5: for every buffer whose size exceeds the declared asset type's size
ceiling, validateFile returns isValid = false with a non-empty error list
containing the size error, and when the extension or (provided) MIME type is
also outside its allow-list the corresponding errors are additionally present
in the same result — errors accumulate, they do not short-circuit. -/
theorem validateFile_oversize_accumulates (filename : String) (size : Nat)
    (t : AssetType) (m : Option String) (pat : Option PatternKey)
    (hsize : FILE_SIZE_LIMITS t < size) :
    (validateFile filename size t m pat).isValid = false ∧
    (validateFile filename size t m pat).errors ≠ [] ∧
    ValidationMsg.sizeExceedsLimit size (FILE_SIZE_LIMITS t) t ∈
      (validateFile filename size t m pat).errors ∧
    (getFileExtension filename ∉ ALLOWED_EXTENSIONS t →
      ValidationMsg.extensionNotAllowed (getFileExtension filename) t ∈
        (validateFile filename size t m pat).errors) ∧
    (∀ s, m = some s → s ≠ "" → s ∉ ALLOWED_MIME_TYPES t →
      ValidationMsg.mimeTypeNotAllowed s t ∈
        (validateFile filename size t m pat).errors) := by
  have hmem : ValidationMsg.sizeExceedsLimit size (FILE_SIZE_LIMITS t) t ∈
      (validateFile filename size t m pat).errors := by
    rw [validateFile_errors, validateFileSize_gt size t hsize]
    exact List.mem_append_left _ (List.mem_singleton.mpr rfl)
  refine ⟨?_, List.ne_nil_of_mem hmem, hmem, ?_, ?_⟩
  · rw [validateFile_isValid, validateFileSize_gt size t hsize]
    rfl
  · intro hext
    rw [validateFile_errors, validateFileExtension_not_mem filename t hext]
    exact List.mem_append_right _ (List.mem_append_left _ (List.mem_singleton.mpr rfl))
  · intro s hm hne hmime
    subst hm
    rw [validateFile_errors, validateMimeType_notAllowed t s hne hmime]
    exact List.mem_append_right _ (List.mem_append_right _
      (List.mem_append_left _ (List.mem_singleton.mpr rfl)))

theorem validateFile_oversize_accumulates_witness :
    (FILE_SIZE_LIMITS AssetType.Doc < 5 * 1024 * 1024 + 1) ∧
    (validateFile "virus.exe" (5 * 1024 * 1024 + 1) AssetType.Doc
      (some "application/zip") none).isValid = false ∧
    ValidationMsg.sizeExceedsLimit (5 * 1024 * 1024 + 1) (FILE_SIZE_LIMITS AssetType.Doc)
      AssetType.Doc ∈
      (validateFile "virus.exe" (5 * 1024 * 1024 + 1) AssetType.Doc
        (some "application/zip") none).errors := by
  have h := validateFile_oversize_accumulates "virus.exe" (5 * 1024 * 1024 + 1)
    AssetType.Doc (some "application/zip") none (by decide)
  exact ⟨by decide, h.1, h.2.2.1⟩

/-- C6: when the size is at or below the ceiling, the extension and the MIME
type are both in the allow-lists, and no filename pattern is required,
validateFile passes with an empty error list. -/
theorem validateFile_valid_inputs (filename : String) (size : Nat)
    (t : AssetType) (m : String)
    (hsize : size ≤ FILE_SIZE_LIMITS t)
    (hext : getFileExtension filename ∈ ALLOWED_EXTENSIONS t)
    (hmime : m ∈ ALLOWED_MIME_TYPES t) :
    (validateFile filename size t (some m) none).isValid = true ∧
    (validateFile filename size t (some m) none).errors = [] := by
  obtain ⟨hv, he⟩ := validateFileSize_le size t hsize
  constructor
  · rw [validateFile_isValid]
    simp [hv, validateFileExtension, hext, validateMimeType_mem t m hmime,
      validateFilenamePattern]
  · rw [validateFile_errors]
    simp [he, validateFileExtension, hext, validateMimeType_mem t m hmime,
      validateFilenamePattern]

theorem validateFile_valid_inputs_witness :
    ((10 : Nat) ≤ FILE_SIZE_LIMITS AssetType.Doc ∧
     getFileExtension "ProjectPlan.json" ∈ ALLOWED_EXTENSIONS AssetType.Doc ∧
     "application/json" ∈ ALLOWED_MIME_TYPES AssetType.Doc) ∧
    (validateFile "ProjectPlan.json" 10 AssetType.Doc (some "application/json") none).isValid
      = true ∧
    (validateFile "ProjectPlan.json" 10 AssetType.Doc (some "application/json") none).errors
      = [] := by
  have h := validateFile_valid_inputs "ProjectPlan.json" 10 AssetType.Doc
    "application/json" (by decide) (by decide) (by decide)
  exact ⟨⟨by decide, by decide, by decide⟩, h.1, h.2⟩

/-- C10: although the mimeType parameter is optional, validateFile fails
whenever it is omitted — even when the size, extension, and (absent)
filename-pattern checks all pass, the result is invalid and its error list is
exactly the "MIME type is required" message. -/
theorem validateFile_missing_mime (filename : String) (size : Nat)
    (t : AssetType)
    (hsize : size ≤ FILE_SIZE_LIMITS t)
    (hext : getFileExtension filename ∈ ALLOWED_EXTENSIONS t) :
    (validateFile filename size t none none).isValid = false ∧
    (validateFile filename size t none none).errors = [ValidationMsg.mimeTypeRequired] := by
  obtain ⟨hv, he⟩ := validateFileSize_le size t hsize
  constructor
  · rw [validateFile_isValid]
    simp [validateMimeType]
  · rw [validateFile_errors]
    simp [he, validateFileExtension, hext, validateMimeType, validateFilenamePattern]

theorem validateFile_missing_mime_witness :
    ((10 : Nat) ≤ FILE_SIZE_LIMITS AssetType.Doc ∧
     getFileExtension "ProjectPlan.json" ∈ ALLOWED_EXTENSIONS AssetType.Doc) ∧
    (validateFile "ProjectPlan.json" 10 AssetType.Doc none none).isValid = false ∧
    (validateFile "ProjectPlan.json" 10 AssetType.Doc none none).errors
      = [ValidationMsg.mimeTypeRequired] := by
  have h := validateFile_missing_mime "ProjectPlan.json" 10 AssetType.Doc
    (by decide) (by decide)
  exact ⟨⟨by decide, by decide⟩, h.1, h.2⟩

/-! Frame materialization. -/

theorem framesForBeat_projectId (pid : String) (b : Beat) :
    ∀ f ∈ framesForBeat pid b, f.projectId = pid := by
  intro f hf
  simp [framesForBeat] at hf
  obtain ⟨i, _, rfl⟩ := hf
  rfl

theorem created_filter_eq_self (pid : String) (beats : List Beat) :
    (beats.flatMap (framesForBeat pid)).filter (fun f => f.projectId == pid) =
      beats.flatMap (framesForBeat pid) := by
  apply List.filter_eq_self.mpr
  intro f hf
  rw [List.mem_flatMap] at hf
  obtain ⟨b, _, hfb⟩ := hf
  simp [framesForBeat_projectId pid b f hfb]

theorem deleted_filter_eq_nil (pid : String) (frames : List FrameRow) :
    ((frames.filter (fun f => !(f.projectId == pid))).filter
      (fun f => f.projectId == pid)) = [] := by
  rw [List.filter_filter]
  apply List.filter_eq_nil_iff.mpr
  intro f _
  cases h : f.projectId == pid <;> simp [h]

theorem materializeFramesFromBeats_count (pid : String) (beats : List Beat)
    (frames : List FrameRow) :
    (materializeFramesFromBeats pid beats frames).2 =
      (beats.flatMap (framesForBeat pid)).length := by
  simp only [materializeFramesFromBeats, List.filter_append,
    deleted_filter_eq_nil, created_filter_eq_self, List.nil_append]

/-- C3: running materializeFramesFromBeats a second time over the frame table
produced by a first run yields the same total frame count — each invocation
deletes every frame of the project and recreates them from the beats'
planned-frame counts, so the count depends only on the beats. -/
theorem materializeFramesFromBeats_idempotent_count (pid : String)
    (beats : List Beat) (frames : List FrameRow) :
    (materializeFramesFromBeats pid beats
        (materializeFramesFromBeats pid beats frames).1).2 =
      (materializeFramesFromBeats pid beats frames).2 := by
  rw [materializeFramesFromBeats_count, materializeFramesFromBeats_count]

/-- C4: for a project whose two beats plan [2, 3] frames, each call produces
exactly 5 frame rows — indices 1..2 for the first beat and 1..3 for the
second — every created frame having status NEW; a second call over the first
call's table yields the same rows and the same total. -/
theorem materialize_two_beats_five_frames :
    materializeFramesFromBeats "p1" beatsTwoThree [] =
      ([⟨"p1", 1, 1, FrameStatus.NEW⟩, ⟨"p1", 1, 2, FrameStatus.NEW⟩,
        ⟨"p1", 2, 1, FrameStatus.NEW⟩, ⟨"p1", 2, 2, FrameStatus.NEW⟩,
        ⟨"p1", 2, 3, FrameStatus.NEW⟩], 5) ∧
    materializeFramesFromBeats "p1" beatsTwoThree
        (materializeFramesFromBeats "p1" beatsTwoThree []).1 =
      ([⟨"p1", 1, 1, FrameStatus.NEW⟩, ⟨"p1", 1, 2, FrameStatus.NEW⟩,
        ⟨"p1", 2, 1, FrameStatus.NEW⟩, ⟨"p1", 2, 2, FrameStatus.NEW⟩,
        ⟨"p1", 2, 3, FrameStatus.NEW⟩], 5) := by
  constructor <;> decide

/-! Ownership-checked project reads. -/

theorem getProjectForUser_nonowner (db : List ProjectRow) (pid cid : String)
    (h : ∀ p ∈ db, p.id = pid → p.ownerClerkId ≠ cid) :
    getProjectForUser db pid cid = none := by
  rw [getProjectForUser, List.find?_eq_none]
  intro p hp
  simp only [Bool.and_eq_true, beq_iff_eq, not_and]
  exact h p hp

/-- C2: a GET /api/projects/[id] request for project id P by an authenticated
user who does not own P returns the 404 not-found envelope and no project
data (getProjectForUser, filtering by owner.clerkId, finds nothing); the
response is moreover identical for any two databases in which P is not owned
by the requester, i.e. independent of P's contents for non-owners. -/
theorem projectGet_nonowner_denied (dbA dbB : List ProjectRow) (pid cid : String)
    (hA : ∀ p ∈ dbA, p.id = pid → p.ownerClerkId ≠ cid)
    (hB : ∀ p ∈ dbB, p.id = pid → p.ownerClerkId ≠ cid) :
    projectGetRoute (some cid) dbA pid = RouteResponse.err 404 "Project not found" ∧
    projectGetRoute (some cid) dbA pid = projectGetRoute (some cid) dbB pid ∧
    getProjectForUser dbA pid cid = none := by
  have hA0 := getProjectForUser_nonowner dbA pid cid hA
  have hB0 := getProjectForUser_nonowner dbB pid cid hB
  refine ⟨?_, ?_, hA0⟩
  · simp [projectGetRoute, hA0]
  · simp [projectGetRoute, hA0, hB0]

theorem projectGet_nonowner_denied_witness :
    ((∀ p ∈ dbWithA, p.id = "p1" → p.ownerClerkId ≠ "intruder") ∧
     (∀ p ∈ dbWithB, p.id = "p1" → p.ownerClerkId ≠ "intruder")) ∧
    projectGetRoute (some "intruder") dbWithA "p1" =
      RouteResponse.err 404 "Project not found" ∧
    projectGetRoute (some "intruder") dbWithA "p1" =
      projectGetRoute (some "intruder") dbWithB "p1" := by
  have h := projectGet_nonowner_denied dbWithA dbWithB "p1" "intruder"
    (by decide) (by decide)
  exact ⟨⟨by decide, by decide⟩, h.1, h.2.1⟩

/-! The mock plan generator. -/

/-- C9: for every topic string, generateMockPlan — a pure function making no
external API call — returns exactly 8 dialogue turns with indices 0..7,
exactly 6 beats with indices 1..6, and a timelineSkeleton whose totalDuration
equals 180. -/
theorem generateMockPlan_shape (topic : String) :
    (generateMockPlan topic).dialogueInputs.length = 8 ∧
    (generateMockPlan topic).dialogueInputs.map DialogueTurn.index =
      [0, 1, 2, 3, 4, 5, 6, 7] ∧
    (generateMockPlan topic).beats.length = 6 ∧
    (generateMockPlan topic).beats.map BeatPlan.index = [1, 2, 3, 4, 5, 6] ∧
    (generateMockPlan topic).timelineSkeleton.totalDuration = 180 :=
  ⟨rfl, rfl, rfl, rfl, rfl⟩

/-! The planning and narration stage handlers. -/

/-- C7: when the LLM call inside POST /api/plan fails, the handler appends an
LLM_GENERATION FAILED progress entry carrying the error detail and returns
the 500 error envelope immediately: the world is otherwise untouched — no
storage upload, no beat or style-bible write, no asset, no status update —
and the progress entries written earlier in the handler (PLANNING_START and
the LLM_GENERATION IN_PROGRESS entry) stay in the log, nothing is rolled
back. -/
theorem planRoute_llm_failure (w : PlanWorld) (uid topic e : String)
    (storage : Except String (String × String))
    (dbFailure assetFailure : Option String) :
    planRoutePost w (some uid) true true topic (Except.error e) storage
        dbFailure assetFailure =
      ({ w with progress := w.progress ++
          [ProgressEntry.mk "PLANNING_START" "IN_PROGRESS"
            (some ("Starting planning for: " ++ topic)),
           ProgressEntry.mk "LLM_GENERATION" "IN_PROGRESS"
            (some "Calling GPT-5 for plan generation"),
           ProgressEntry.mk "LLM_GENERATION" "FAILED"
            (some ("LLM error: " ++ e))] },
       errEnvelope 500 "Failed to generate plan with GPT-5") := by
  simp [planRoutePost, trackPlanningProgress]

/-- C8 counterexample: when the createAsset step inside POST /api/plan throws
("R2 write failed") while every other step succeeds, the failure is absorbed:
the handler returns the success envelope with no error string and records no
FAILED progress entry — the plan assets are simply missing from the world. -/
theorem plan_asset_failure_swallowed :
    (¬ ((assetFailureRun.2.success = false) ∨
        (assetFailureRun.2.error ≠ none) ∨
        (∃ pe ∈ assetFailureRun.1.progress, pe.status = "FAILED"))) ∧
    assetFailureRun.1.assets = [] := by
  decide

/-- C8 amended: failures in the LLM, storage-upload and database-save steps of
POST /api/plan always surface — a success envelope is only ever returned when
all three succeeded — but a failure of the asset-recording step is caught and
only logged to the console: the handler still returns the success envelope,
appends no FAILED progress entry, and leaves the asset rows unwritten. -/
theorem planRoute_failure_surfacing :
    (∀ (w : PlanWorld) (uid topic : String) (llm : Except String PlanResponse)
        (storage : Except String (String × String))
        (dbFailure assetFailure : Option String),
       (planRoutePost w (some uid) true true topic llm storage dbFailure
           assetFailure).2.success = true →
         (∃ p, llm = Except.ok p) ∧ (∃ k, storage = Except.ok k) ∧
         dbFailure = none) ∧
    (∀ (w : PlanWorld) (uid topic e : String) (plan : PlanResponse)
        (k1 k2 : String),
       (planRoutePost w (some uid) true true topic (Except.ok plan)
           (Except.ok (k1, k2)) none (some e)).2 = okEnvelope ∧
       (planRoutePost w (some uid) true true topic (Except.ok plan)
           (Except.ok (k1, k2)) none (some e)).1.assets = w.assets ∧
       (∀ pe ∈ (planRoutePost w (some uid) true true topic (Except.ok plan)
           (Except.ok (k1, k2)) none (some e)).1.progress.drop w.progress.length,
         pe.status ≠ "FAILED")) := by
  constructor
  · intro w uid topic llm storage dbFailure assetFailure h
    cases llm with
    | error e => simp [planRoutePost, trackPlanningProgress, errEnvelope] at h
    | ok plan =>
      cases storage with
      | error e => simp [planRoutePost, trackPlanningProgress, errEnvelope] at h
      | ok keys =>
        cases dbFailure with
        | some e => simp [planRoutePost, trackPlanningProgress, errEnvelope] at h
        | none => exact ⟨⟨plan, rfl⟩, ⟨keys, rfl⟩, rfl⟩
  · intro w uid topic e plan k1 k2
    refine ⟨rfl, rfl, ?_⟩
    have hprog : (planRoutePost w (some uid) true true topic (Except.ok plan)
        (Except.ok (k1, k2)) none (some e)).1.progress =
        w.progress ++
          [ProgressEntry.mk "PLANNING_START" "IN_PROGRESS"
            (some ("Starting planning for: " ++ topic)),
           ProgressEntry.mk "LLM_GENERATION" "IN_PROGRESS"
            (some "Calling GPT-5 for plan generation"),
           ProgressEntry.mk "LLM_GENERATION" "COMPLETED"
            (some ("Generated " ++ toString plan.beats.length ++ " beats, " ++
                   toString plan.dialogueInputs.length ++ " dialogue turns")),
           ProgressEntry.mk "STORAGE_UPLOAD" "IN_PROGRESS"
            (some "Uploading plan files to R2"),
           ProgressEntry.mk "STORAGE_UPLOAD" "COMPLETED"
            (some "Uploaded ProjectPlan.json and StyleBible.min.json"),
           ProgressEntry.mk "DATABASE_SAVE" "IN_PROGRESS"
            (some "Saving beats and style bible to database"),
           ProgressEntry.mk "DATABASE_SAVE" "COMPLETED"
            (some ("Saved " ++ toString plan.beats.length ++ " beats and style bible")),
           ProgressEntry.mk "PLANNING_COMPLETE" "COMPLETED"
            (some ("Planning completed successfully. Total duration: " ++
                   toString plan.timelineSkeleton.totalDuration ++ "s"))] := by
      simp [planRoutePost, trackPlanningProgress]
    rw [hprog, List.drop_left]
    intro pe hpe
    simp only [List.mem_cons, List.not_mem_nil, or_false] at hpe
    rcases hpe with rfl | rfl | rfl | rfl | rfl | rfl | rfl | rfl <;> simp

theorem planRoute_failure_surfacing_witness :
    (planRoutePost planWorld0 (some "user_1") true true "coffee"
        (Except.ok emptyPlanResponse) (Except.ok ("k1", "k2")) none
        none).2.success = true ∧
    ((∃ p, (Except.ok emptyPlanResponse : Except String PlanResponse) =
        Except.ok p) ∧
     (∃ k, (Except.ok ("k1", "k2") : Except String (String × String)) =
        Except.ok k) ∧
     (none : Option String) = none) :=
  ⟨rfl, planRoute_failure_surfacing.1 planWorld0 "user_1" "coffee"
    (Except.ok emptyPlanResponse) (Except.ok ("k1", "k2")) none none rfl⟩

/-- C1 counterexample: with the project currently ALIGNED and every oracle
succeeding, the POST /api/narration handler does not set the status to
NARRATED: the status guard at the top of the route rejects the request with
the 400 envelope and leaves the world untouched — so the claim that the
status-setting operations apply for every current status and that no code
enforces transition legality fails at this input. -/
theorem narration_status_guard_counterexample :
    alignedNarrationRun.1.project.status ≠ ProjectStatus.NARRATED ∧
    alignedNarrationRun =
      (alignedNarrWorld,
       errEnvelope 400 "Project must be in PLANNED status to generate narration") := by
  decide

/-- C1 amended: the database-level status setters perform no transition
validation — updateProjectStatusToPlanned and updateProjectStatusToNarrated
set the status field directly whatever the current status — and POST
/api/plan invokes the PLANNED setter without any current-status check, so any
initial status (including ASSEMBLED, a backward transition) is overwritten to
PLANNED; the narration route, however, does guard its transition: it rejects
with a 400 error, leaving the world unchanged, whenever the current status is
not PLANNED. -/
theorem status_setters_unvalidated_with_narration_guard :
    (∀ p : ProjectRow,
       (updateProjectStatusToPlanned p).status = ProjectStatus.PLANNED ∧
       (updateProjectStatusToNarrated p).status = ProjectStatus.NARRATED) ∧
    (∀ (w : PlanWorld) (uid topic : String) (plan : PlanResponse)
        (keys : String × String) (assetFailure : Option String),
       (planRoutePost w (some uid) true true topic (Except.ok plan)
           (Except.ok keys) none assetFailure).1.project.status =
         ProjectStatus.PLANNED) ∧
    (∀ (w : NarrWorld) (uid : String) (di : Nat) (voice : String)
        (audio : Except String String) (assetFailure : Option String),
       w.project.status ≠ ProjectStatus.PLANNED →
         narrationPost w (some uid) true true di voice audio assetFailure =
           (w, errEnvelope 400 "Project must be in PLANNED status to generate narration")) := by
  refine ⟨fun p => ⟨rfl, rfl⟩, ?_, ?_⟩
  · intro w uid topic plan keys assetFailure
    cases assetFailure <;> rfl
  · intro w uid di voice audio assetFailure h
    simp [narrationPost, h]

theorem status_setters_unvalidated_with_narration_guard_witness :
    alignedNarrWorld.project.status ≠ ProjectStatus.PLANNED ∧
    narrationPost alignedNarrWorld (some "user_1") true true 0 "voice"
        (Except.ok "k") none =
      (alignedNarrWorld,
       errEnvelope 400 "Project must be in PLANNED status to generate narration") :=
  ⟨by decide, status_setters_unvalidated_with_narration_guard.2.2 alignedNarrWorld
    "user_1" 0 "voice" (Except.ok "k") none (by decide)⟩

end Cleo
